import Mathlib

/-!
Verification of the logic-automator repository (improved_midi_import.py,
simple_dance_automator.py) against its natural-language specification.

The Python code drives Logic Pro through the accessibility tree.  We embed
the observable behaviour shallowly: UI windows are records of their queried
attributes, every side-effecting primitive becomes an element of a trace of
`Act`s, the window list returned by the t-th call to `logic.logic.windows()`
is an environment function `Nat → List Window`, and the two polling loops of
`importMidiWithAbsolutePath` become recursive functions (the unbounded
`while` loop takes explicit observation fuel; `none` means it has not
terminated within that fuel).  The filesystem operations used by
`createProjectFromTemplate` are embedded over an association-list filesystem.
-/

/-- One UI window as seen through the accessibility tree: the `AXTitle`
attribute when present, the `AXDescription` attribute when present, and the
labels of the buttons reachable through `window.buttons(label)`. -/
structure Window where
  title : Option String
  descr : Option String
  buttonLabels : List String
deriving DecidableEq, Repr

/-- The side-effecting primitives issued by improved_midi_import.py, in the
order the script performs them.  `queryWindows` records one call to
`logic.logic.windows()` inside a polling loop. -/
inductive Act where
  | selectLastTrack : Act
  | menuPress : String → String → String → Act
  | activateApp : Act
  | keyChord : String → List String → Act
  | sendGlobalKey : String → Act
  | sendKeys : String → Act
  | pressButton : String → Act
  | sleepMs : Nat → Act
  | queryWindows : Act
deriving DecidableEq, Repr

/-- The environment the script runs against: `os.path.abspath`, `os.path.exists`,
and the window list returned by the t-th call to `logic.logic.windows()`. -/
structure Env where
  abspath : String → String
  pathExists : String → Bool
  windows : Nat → List Window

/-- The list comprehension at improved_midi_import.py:54-58: windows whose
`AXTitle` attribute is present and equals "Import". -/
def importWindowsAt (env : Env) (t : Nat) : List Window :=
  (env.windows t).filter (fun w => w.title = some "Import")

/-- The list comprehension at improved_midi_import.py:89-94: windows whose
`AXDescription` attribute is present and equals "alert". -/
def alertWindowsAt (env : Env) (t : Nat) : List Window :=
  (env.windows t).filter (fun w => w.descr = some "alert")

/-- The unbounded `while len(windows) == 0` loop at improved_midi_import.py:52-59.
Each iteration sleeps 100 ms and then queries the window list.  `fuel` is an
observation bound (NOT part of the code, which has no bound): the result is
`none` when the loop has not found a window titled "Import" within `fuel`
iterations.  On success it returns the first matching window and the index of
the next `windows()` call. -/
def waitImportWindow (env : Env) : Nat → Nat → List Act × Option (Window × Nat)
  | 0, _ => ([], none)
  | fuel + 1, t =>
      match importWindowsAt env t with
      | [] =>
          let rest := waitImportWindow env fuel (t + 1)
          ([Act.sleepMs 100, Act.queryWindows] ++ rest.1, rest.2)
      | w :: _ => ([Act.sleepMs 100, Act.queryWindows], some (w, t + 1))

/-- The bounded polling loop `for _ in range(50)` at improved_midi_import.py:87-96,
generalised over the attempt bound and the query: each attempt sleeps 100 ms,
queries, and stops at the first non-empty result.  Returns the trace of the
attempts and the first window found (`none` encodes the TimedOut outcome:
the bound was exhausted with every query empty). -/
def pollWindows (q : Nat → List Window) : Nat → Nat → List Act × Option Window
  | 0, _ => ([], none)
  | n + 1, t =>
      match q t with
      | [] =>
          let rest := pollWindows q n (t + 1)
          ([Act.sleepMs 100, Act.queryWindows] ++ rest.1, rest.2)
      | w :: _ => ([Act.sleepMs 100, Act.queryWindows], some w)

/-- The character-by-character path injection loop at improved_midi_import.py:74-77:
for each character of the path, one `sendKeys` call carrying that single
character, followed by a 10 ms pacing sleep. -/
def injectPath (s : String) : List Act :=
  (s.data.map (fun c => [Act.sendKeys (String.singleton c), Act.sleepMs 10])).flatten

/-- The strings carried by the `sendKeys` calls of a trace, in order. -/
def sentKeys (as : List Act) : List String :=
  as.filterMap (fun a => match a with | Act.sendKeys s => some s | _ => none)

/-- The button presses of a trace, in order. -/
def pressedButtons (as : List Act) : List String :=
  as.filterMap (fun a => match a with | Act.pressButton b => some b | _ => none)

/-- The alert-resolution block at improved_midi_import.py:99-109: try the
"Import Tempo" button; if it cannot be found (`buttons(...)[0]` raises),
try "OK"; if that also fails, only a message is printed and no press occurs. -/
def resolveTempoAlert (alert : Window) : List Act :=
  if alert.buttonLabels.contains "Import Tempo" then [Act.pressButton "Import Tempo"]
  else if alert.buttonLabels.contains "OK" then [Act.pressButton "OK"]
  else []

/-- Outcome of `importMidiWithAbsolutePath`: `notFound` is the early `return False`
when the file does not exist, `success` the final `return True`, and `crashed`
the uncaught IndexError when `import_window.buttons("Import")[0]` finds no
button. -/
inductive ImportOutcome where
  | notFound : ImportOutcome
  | success : ImportOutcome
  | crashed : ImportOutcome
deriving DecidableEq, Repr

/-- improved_midi_import.py:34-113, `importMidiWithAbsolutePath`: resolve the
absolute path, bail out if the file is missing, select the last track, invoke
the import menu item, wait (unboundedly) for the "Import" window, inject the
path character by character, submit, press the dialog's "Import" button, poll
up to 50 times for an alert window, and resolve the alert if one appeared.
Returns the trace of actions and the outcome; the outcome is `none` when the
unbounded window wait has not terminated within `fuel` iterations. -/
def importMidiWithAbsolutePath (env : Env) (midi : String) (fuel : Nat) :
    List Act × Option ImportOutcome :=
  let absPath := env.abspath midi
  if env.pathExists absPath = false then ([], some ImportOutcome.notFound)
  else
    let pre := [Act.selectLastTrack, Act.menuPress "File" "Import" "MIDI File…"]
    match waitImportWindow env fuel 0 with
    | (evs, none) => (pre ++ evs, none)
    | (evs, some (w, t)) =>
        let inject :=
          [Act.activateApp, Act.keyChord "g" ["command", "shift"], Act.sleepMs 500,
           Act.keyChord "a" ["command"], Act.sendGlobalKey "backspace"]
          ++ injectPath absPath
          ++ [Act.sleepMs 500, Act.sendKeys "\n", Act.sleepMs 1000]
        if w.buttonLabels.contains "Import" then
          let confirm := [Act.pressButton "Import"]
          let polled := pollWindows (alertWindowsAt env) 50 t
          let resolved :=
            match polled.2 with
            | none => []
            | some a => resolveTempoAlert a
          (pre ++ evs ++ inject ++ confirm ++ polled.1 ++ resolved,
           some ImportOutcome.success)
        else
          (pre ++ evs ++ inject, some ImportOutcome.crashed)

/-- An association-list filesystem: each entry maps a path to the (abstracted)
content tree rooted there.  A real filesystem has at most one entry per path;
the list representation lets us state that the code never produces a
duplicated artifact. -/
abbrev FS : Type := List (String × Nat)

/-- Content rooted at a path, first entry wins (like a real filesystem lookup). -/
def fsLookup : FS → String → Option Nat
  | [], _ => none
  | (q, v) :: rest, p => if q = p then some v else fsLookup rest p

/-- `os.path.exists`. -/
def fsExists (fs : FS) (p : String) : Bool :=
  (fsLookup fs p).isSome

/-- `shutil.rmtree p`: every entry at `p` disappears. -/
def fsRemove (fs : FS) (p : String) : FS :=
  fs.filter (fun e => e.1 ≠ p)

/-- `os.makedirs(p, exist_ok=True)`: create an (empty, content 0) directory
entry when the path does not exist yet. -/
def makedirs (fs : FS) (p : String) : FS :=
  if fsExists fs p then fs else (p, 0) :: fs

/-- `shutil.copytree src dst`: fails (raises) when `src` does not exist,
otherwise creates `dst` with a copy of the content at `src`. -/
def copytree (fs : FS) (src dst : String) : Option FS :=
  match fsLookup fs src with
  | none => none
  | some v => some ((dst, v) :: fs)

/-- `os.path.join a b`. -/
def pathJoin (a b : String) : String := a ++ "/" ++ b

/-- improved_midi_import.py:14-31 (identical in simple_dance_automator.py:14-31),
`createProjectFromTemplate`: ensure the output directory exists, compute the
destination `output_dir/project_name.logicx`, remove a pre-existing
destination, copy the template there, return the new path.  `none` is the
exception escaping when `shutil.copytree` finds no template. -/
def createProjectFromTemplate (fs : FS) (templatePath projectName outputDir : String) :
    Option (FS × String) :=
  let fs1 := makedirs fs outputDir
  let newProjectPath := pathJoin outputDir (projectName ++ ".logicx")
  let fs2 := if fsExists fs1 newProjectPath then fsRemove fs1 newProjectPath else fs1
  match copytree fs2 templatePath newProjectPath with
  | none => none
  | some fs3 => some (fs3, newProjectPath)

/-- The fixed template path at improved_midi_import.py:120. -/
def templatePath : String := "templates/dance_template.logicx"

/-- The fixed output directory at improved_midi_import.py:133. -/
def outputDir : String := "projects"

/-- Result of `createDanceProject`: `templateMissing` is the early
`return False`; `projectCreated p` is the final `return project_path`. -/
inductive DanceResult where
  | templateMissing : DanceResult
  | projectCreated : String → DanceResult
deriving DecidableEq, Repr

/-- improved_midi_import.py:115-154, `createDanceProject`: check the template,
provision the project, open it, optionally run the MIDI import (whose boolean
result only selects a status message and is otherwise discarded), and return
the project path.  `importOutcome` abstracts what
`importMidiWithAbsolutePath midi_file` would return; `tempo` and `key` only
appear in printed text.  The `Option` is the exception escaping from
`shutil.copytree` (impossible once the template-existence check passed). -/
def createDanceProject (fs : FS) (projectName : String) (tempo : Nat) (key : String)
    (midiFile : Option String) (importOutcome : Bool) : Option (FS × DanceResult) :=
  let _ := tempo
  let _ := key
  if fsExists fs templatePath = false then some (fs, DanceResult.templateMissing)
  else
    match createProjectFromTemplate fs templatePath projectName outputDir with
    | none => none
    | some (fs1, projectPath) =>
        let _ := midiFile.map (fun _ => importOutcome)
        some (fs1, DanceResult.projectCreated projectPath)

/-- improved_midi_import.py:157-177, `main`: with fewer than two entries in
`sys.argv` print usage and `sys.exit(1)`; otherwise parse the arguments, call
`createDanceProject`, discard its result, and fall off the end of the script
(process exit code 0).  Returns the exit code together with what
`createDanceProject` returned (`none` when it was never called). -/
def mainRun (argv : List String) (fs : FS) (importOutcome : Bool) :
    Nat × Option (Option (FS × DanceResult)) :=
  if argv.length < 2 then (1, none)
  else
    let projectName := argv.getD 1 ""
    let midiFile := if 4 < argv.length then some (argv.getD 4 "") else none
    (0, some (createDanceProject fs projectName 124 "A minor" midiFile importOutcome))

/-- Number of window-list queries recorded in a trace. -/
def queryCount (as : List Act) : Nat :=
  as.countP (fun a => a == Act.queryWindows)

/-- Number of sleeps recorded in a trace. -/
def sleepCount (as : List Act) : Nat :=
  as.countP (fun a => match a with | Act.sleepMs _ => true | _ => false)

lemma pollWindows_result_none (q : Nat → List Window) :
    ∀ n t, (∀ u, q u = []) → (pollWindows q n t).2 = none := by
  intro n
  induction n with
  | zero => intro t _; rfl
  | succ m ih =>
      intro t hq
      simp only [pollWindows, hq t]
      exact ih (t + 1) hq

lemma pollWindows_counts_timeout (q : Nat → List Window) :
    ∀ n t, (∀ u, q u = []) →
      queryCount (pollWindows q n t).1 = n ∧ sleepCount (pollWindows q n t).1 = n := by
  intro n
  induction n with
  | zero => intro t _; exact ⟨rfl, rfl⟩
  | succ m ih =>
      intro t hq
      have h := ih (t + 1) hq
      simp only [pollWindows, hq t]
      constructor
      · simp only [queryCount, List.countP_append] at h ⊢
        simp [h.1, Nat.add_comm]
      · simp only [sleepCount, List.countP_append] at h ⊢
        simp [h.2, Nat.add_comm]

lemma pollWindows_match (q : Nat → List Window) :
    ∀ j n t, j < n → (∀ u, u < j → q (t + u) = []) → q (t + j) ≠ [] →
      (pollWindows q n t).2.isSome = true ∧
      queryCount (pollWindows q n t).1 = j + 1 ∧
      sleepCount (pollWindows q n t).1 = j + 1 := by
  intro j
  induction j with
  | zero =>
      intro n t hn _ hm
      obtain ⟨m, rfl⟩ := Nat.exists_eq_succ_of_ne_zero (Nat.pos_iff_ne_zero.mp hn)
      rcases hq : q t with _ | ⟨w, ws⟩
      · exact absurd hq (by simpa using hm)
      · simp [pollWindows, hq, queryCount, sleepCount]
  | succ j ih =>
      intro n t hn hbefore hm
      obtain ⟨m, rfl⟩ : ∃ m, n = m + 1 := ⟨n - 1, by omega⟩
      have hq0 : q t = [] := by simpa using hbefore 0 (Nat.succ_pos j)
      have hrec := ih m (t + 1) (Nat.lt_of_succ_lt_succ hn)
        (fun u hu => by
          have := hbefore (u + 1) (Nat.succ_lt_succ hu)
          simpa [Nat.add_assoc, Nat.add_comm 1 u] using this)
        (by
          have : t + (j + 1) = t + 1 + j := by omega
          simpa [this] using hm)
      simp only [pollWindows, hq0]
      refine ⟨hrec.1, ?_, ?_⟩
      · simp only [queryCount, List.countP_append] at hrec ⊢
        simp [hrec.2.1, Nat.add_comm]
      · simp only [sleepCount, List.countP_append] at hrec ⊢
        simp [hrec.2.2, Nat.add_comm]

lemma waitImportWindow_result_none (env : Env) :
    ∀ fuel t, (∀ u, importWindowsAt env u = []) → (waitImportWindow env fuel t).2 = none := by
  intro fuel
  induction fuel with
  | zero => intro t _; rfl
  | succ m ih =>
      intro t hq
      simp only [waitImportWindow, hq t]
      exact ih (t + 1) hq

lemma waitImportWindow_trace_mem (env : Env) :
    ∀ fuel t a, a ∈ (waitImportWindow env fuel t).1 →
      a = Act.sleepMs 100 ∨ a = Act.queryWindows := by
  intro fuel
  induction fuel with
  | zero => intro t a ha; simp [waitImportWindow] at ha
  | succ m ih =>
      intro t a ha
      rcases hq : importWindowsAt env t with _ | ⟨w, ws⟩
      · simp only [waitImportWindow, hq, List.mem_append] at ha
        rcases ha with ha | ha
        · simpa using ha
        · exact ih (t + 1) a ha
      · simp only [waitImportWindow, hq] at ha
        simpa using ha

lemma pollWindows_trace_mem (q : Nat → List Window) :
    ∀ n t a, a ∈ (pollWindows q n t).1 →
      a = Act.sleepMs 100 ∨ a = Act.queryWindows := by
  intro n
  induction n with
  | zero => intro t a ha; simp [pollWindows] at ha
  | succ m ih =>
      intro t a ha
      rcases hq : q t with _ | ⟨w, ws⟩
      · simp only [pollWindows, hq, List.mem_append] at ha
        rcases ha with ha | ha
        · simpa using ha
        · exact ih (t + 1) a ha
      · simp only [pollWindows, hq] at ha
        simpa using ha

/-- Number of filesystem entries rooted at a path (a real filesystem has at
most one; the code must never create two). -/
def fsCount (fs : FS) (p : String) : Nat :=
  fs.countP (fun e => e.1 == p)

lemma fsCount_eq_zero (fs : FS) (p : String) (h : fsLookup fs p = none) :
    fsCount fs p = 0 := by
  induction fs with
  | nil => rfl
  | cons e rest ih =>
      rcases e with ⟨q, v⟩
      by_cases hq : q = p
      · simp [fsLookup, hq] at h
      · simp only [fsLookup, if_neg hq] at h
        simp only [fsCount, List.countP_cons] at ih ⊢
        rw [ih h]
        simp [hq]

lemma fsCount_remove (fs : FS) (p : String) : fsCount (fsRemove fs p) p = 0 := by
  induction fs with
  | nil => rfl
  | cons e rest ih =>
      rcases e with ⟨q, v⟩
      by_cases hq : q = p
      · simp [fsRemove, List.filter_cons, hq] at ih ⊢
        exact ih
      · simp [fsRemove, List.filter_cons, hq, fsCount, List.countP_cons] at ih ⊢

lemma fsLookup_remove_ne (fs : FS) (p q : String) (h : p ≠ q) :
    fsLookup (fsRemove fs q) p = fsLookup fs p := by
  induction fs with
  | nil => rfl
  | cons e rest ih =>
      rcases e with ⟨r, v⟩
      by_cases hr : r = q
      · have hqp : q ≠ p := Ne.symm h
        have hrp : r ≠ p := fun hrp => h (hrp ▸ hr)
        simpa [fsRemove, List.filter_cons, hr, fsLookup, hrp, hqp] using ih
      · by_cases hp : r = p
        · subst hp
          simp [fsRemove, List.filter_cons, hr, fsLookup]
        · simpa [fsRemove, List.filter_cons, hr, fsLookup, hp] using ih

lemma fsLookup_makedirs (fs : FS) (p q : String) (v : Nat)
    (h : fsLookup fs p = some v) : fsLookup (makedirs fs q) p = some v := by
  unfold makedirs
  split
  · exact h
  · rename_i hq
    rcases eq_or_ne q p with rfl | hne
    · exact absurd (by simp [fsExists, h]) hq
    · simpa [fsLookup, hne] using h

lemma fsExists_makedirs_self (fs : FS) (p : String) :
    fsExists (makedirs fs p) p = true := by
  unfold makedirs
  split
  · assumption
  · simp [fsExists, fsLookup]

lemma fsExists_of_lookup_some (fs : FS) (p : String) (v : Nat)
    (h : fsLookup fs p = some v) : fsExists fs p = true := by
  simp [fsExists, h]

/-- The behaviour of one `createProjectFromTemplate` call when the template
exists and is not the destination path itself: the call succeeds, the output
directory exists afterwards, exactly one copy of the template content sits at
the returned destination path, and the template itself is untouched. -/
lemma createProjectFromTemplate_spec (fs : FS) (tp name od : String) (v : Nat)
    (h1 : fsLookup fs tp = some v)
    (h2 : pathJoin od (name ++ ".logicx") ≠ tp) :
    ∃ fs3,
      createProjectFromTemplate fs tp name od
        = some (fs3, pathJoin od (name ++ ".logicx")) ∧
      fsExists fs3 od = true ∧
      fsLookup fs3 (pathJoin od (name ++ ".logicx")) = some v ∧
      fsCount fs3 (pathJoin od (name ++ ".logicx")) = 1 ∧
      fsLookup fs3 tp = some v := by
  have h2s : tp ≠ pathJoin od (name ++ ".logicx") := fun h => h2 h.symm
  have h1a : fsLookup (makedirs fs od) tp = some v := fsLookup_makedirs fs tp od v h1
  have hod : fsExists (makedirs fs od) od = true := fsExists_makedirs_self fs od
  by_cases hpre : fsExists (makedirs fs od) (pathJoin od (name ++ ".logicx")) = true
  · have h1b :
        fsLookup (fsRemove (makedirs fs od) (pathJoin od (name ++ ".logicx"))) tp = some v :=
      (fsLookup_remove_ne _ _ _ h2s).trans h1a
    refine ⟨(pathJoin od (name ++ ".logicx"), v)
        :: fsRemove (makedirs fs od) (pathJoin od (name ++ ".logicx")), ?_, ?_, ?_, ?_, ?_⟩
    · simp only [createProjectFromTemplate, hpre, if_true, copytree, h1b]
    · rcases eq_or_ne (pathJoin od (name ++ ".logicx")) od with hcase | hcase
      · simp [fsExists, fsLookup, hcase]
      · have : fsLookup (fsRemove (makedirs fs od) (pathJoin od (name ++ ".logicx"))) od
            = fsLookup (makedirs fs od) od := fsLookup_remove_ne _ _ _ (fun h => hcase h.symm)
        simp only [fsExists, fsLookup, if_neg hcase]
        rw [this]
        simpa [fsExists] using hod
    · simp [fsLookup]
    · have h0 := fsCount_remove (makedirs fs od) (pathJoin od (name ++ ".logicx"))
      simp [fsCount, List.countP_cons] at h0 ⊢
      exact h0
    · simp only [fsLookup, if_neg h2]
      exact h1b
  · have hnone : fsLookup (makedirs fs od) (pathJoin od (name ++ ".logicx")) = none := by
      rcases hl : fsLookup (makedirs fs od) (pathJoin od (name ++ ".logicx")) with _ | w
      · rfl
      · exact absurd (fsExists_of_lookup_some _ _ _ hl) hpre
    refine ⟨(pathJoin od (name ++ ".logicx"), v) :: makedirs fs od, ?_, ?_, ?_, ?_, ?_⟩
    · have hco : copytree (makedirs fs od) tp (pathJoin od (name ++ ".logicx"))
          = some ((pathJoin od (name ++ ".logicx"), v) :: makedirs fs od) := by
        simp [copytree, h1a]
      simp [createProjectFromTemplate, hpre, hco]
    · rcases eq_or_ne (pathJoin od (name ++ ".logicx")) od with hcase | hcase
      · simp [fsExists, fsLookup, hcase]
      · simp only [fsExists, fsLookup, if_neg hcase]
        simpa [fsExists] using hod
    · simp [fsLookup]
    · have h0 := fsCount_eq_zero (makedirs fs od) (pathJoin od (name ++ ".logicx")) hnone
      simp [fsCount, List.countP_cons] at h0 ⊢
      exact h0
    · simp only [fsLookup, if_neg h2]
      exact h1a

lemma sentKeys_append (as bs : List Act) :
    sentKeys (as ++ bs) = sentKeys as ++ sentKeys bs :=
  List.filterMap_append _ _ _

lemma pressedButtons_append (as bs : List Act) :
    pressedButtons (as ++ bs) = pressedButtons as ++ pressedButtons bs :=
  List.filterMap_append _ _ _

lemma sentKeys_injectPath_chars (l : List Char) :
    sentKeys ((l.map (fun c => [Act.sendKeys (String.singleton c), Act.sleepMs 10])).flatten)
      = l.map (fun c => String.singleton c) := by
  induction l with
  | nil => rfl
  | cons c rest ih =>
      simp only [List.map_cons, List.flatten_cons, sentKeys, List.filterMap_append] at ih ⊢
      rw [ih]
      rfl

lemma sentKeys_injectPath (s : String) :
    sentKeys (injectPath s) = s.data.map (fun c => String.singleton c) :=
  sentKeys_injectPath_chars s.data

lemma pressedButtons_injectPath (s : String) : pressedButtons (injectPath s) = [] := by
  unfold injectPath
  induction s.data with
  | nil => rfl
  | cons c rest ih =>
      simp only [List.map_cons, List.flatten_cons, pressedButtons, List.filterMap_append] at ih ⊢
      rw [ih]
      rfl

lemma pressedButtons_eq_nil_of_mem (as : List Act)
    (h : ∀ a ∈ as, a = Act.sleepMs 100 ∨ a = Act.queryWindows) :
    pressedButtons as = [] := by
  induction as with
  | nil => rfl
  | cons a rest ih =>
      have ha := h a (List.mem_cons_self a rest)
      have hrest := ih (fun b hb => h b (List.mem_cons_of_mem a hb))
      rcases ha with rfl | rfl
      · simpa [pressedButtons] using hrest
      · simpa [pressedButtons] using hrest

/-- The destination path of a provisioned project always starts with
"projects/" and thus can never coincide with the fixed template path. -/
lemma projectDest_ne_templatePath (s : String) : pathJoin outputDir s ≠ templatePath := by
  intro h
  have hd : (pathJoin outputDir s).data = templatePath.data := congrArg String.data h
  have hx : ((outputDir ++ "/") ++ s).data = templatePath.data := by
    simpa [pathJoin, String.append_assoc] using hd
  rw [String.data_append] at hx
  have hhd := congrArg List.head? hx
  have h1 : (outputDir ++ "/").data = 'p' :: "rojects/".data := by decide
  rw [h1] at hhd
  simp only [List.cons_append, List.head?_cons] at hhd
  have h2 : templatePath.data.head? = some 't' := by decide
  rw [h2] at hhd
  exact absurd (Option.some.inj hhd) (by decide)

lemma sentKeys_eq_nil_of_mem (as : List Act)
    (h : ∀ a ∈ as, a = Act.sleepMs 100 ∨ a = Act.queryWindows) :
    sentKeys as = [] := by
  induction as with
  | nil => rfl
  | cons a rest ih =>
      have ha := h a (List.mem_cons_self a rest)
      have hrest := ih (fun b hb => h b (List.mem_cons_of_mem a hb))
      rcases ha with rfl | rfl
      · simpa [sentKeys] using hrest
      · simpa [sentKeys] using hrest

/-- An environment in which `logic.logic.windows()` always returns the empty
list: neither the import dialog nor any alert ever appears. -/
def envNoWindows : Env :=
  { abspath := fun p => p, pathExists := fun _ => true, windows := fun _ => [] }

/-- The import dialog window: title "Import", carrying an "Import" button. -/
def importDialogWindow : Window :=
  { title := some "Import", descr := none, buttonLabels := ["Import"] }

/-- A tempo alert window offering neither of the two known buttons. -/
def alertNoKnownButtons : Window :=
  { title := none, descr := some "alert", buttonLabels := ["Cancel"] }

/-- A tempo alert window offering both candidate buttons. -/
def alertBothButtons : Window :=
  { title := none, descr := some "alert", buttonLabels := ["Import Tempo", "OK"] }

/-- A tempo alert window offering only the second candidate button. -/
def alertOnlyOk : Window :=
  { title := none, descr := some "alert", buttonLabels := ["OK"] }

/-- An environment where the import dialog is always present and a tempo alert
with no known button is always present. -/
def envUnresolvedAlert : Env :=
  { abspath := fun p => p, pathExists := fun _ => true,
    windows := fun _ => [importDialogWindow, alertNoKnownButtons] }

/-- An environment where the import dialog is always present and no alert ever
appears. -/
def envNoAlert : Env :=
  { abspath := fun p => p, pathExists := fun _ => true,
    windows := fun _ => [importDialogWindow] }

/-- A query that matches for the first time on its second invocation. -/
def qMatchSecond : Nat → List Window :=
  fun u => if u = 1 then [importDialogWindow] else []

/-- C1, counterexample: the claim says every poll, including the wait for the
dialog window of the importer, stops after a bound and reports TimedOut.  But the
dialog wait at improved_midi_import.py:52-59 is an unbounded `while` loop: in
an environment where no "Import" window ever appears there is NO bound within
which it produces any outcome at all. -/
theorem C1_counterexample :
    ¬ ∃ fuel, ((waitImportWindow envNoWindows fuel 0).2).isSome = true := by
  rintro ⟨fuel, h⟩
  rw [waitImportWindow_result_none envNoWindows fuel 0 (fun _ => rfl)] at h
  simp at h

/-- C1 (amended): the tempo-prompt poll (the `for _ in range(50)` loop,
generalised as `pollWindows`) is bound-based: with a never-matching query it
performs exactly its `n` attempts and stops with no match.  The import-dialog
wait, in contrast, is unbounded: with a never-matching query it is still
running after any number of iterations, and it has no TimedOut outcome. -/
theorem C1_amended_bounds (q : Nat → List Window) (n t : Nat) (env : Env) (fuel u : Nat)
    (hq : ∀ i, q i = []) (hw : ∀ i, importWindowsAt env i = []) :
    (pollWindows q n t).2 = none ∧
    queryCount (pollWindows q n t).1 = n ∧
    (waitImportWindow env fuel u).2 = none :=
  ⟨pollWindows_result_none q n t hq, (pollWindows_counts_timeout q n t hq).1,
   waitImportWindow_result_none env fuel u hw⟩

/-- C1, witness for the amended theorem at a concrete never-matching
environment. -/
theorem C1_witness :
    (pollWindows (fun _ => []) 50 0).2 = none ∧
    queryCount (pollWindows (fun _ => []) 50 0).1 = 50 ∧
    (waitImportWindow envNoWindows 7 0).2 = none :=
  C1_amended_bounds (fun _ => []) 50 0 envNoWindows 7 0 (fun _ => rfl) (fun _ => rfl)

/-- C2, counterexample: the claim says that when the import dialog never
appears within a bound, the orchestrator reports Failed(DialogNotFound).  In
fact `importMidiWithAbsolutePath` never reports anything in that situation:
for every observation bound it is still inside the unbounded window wait. -/
theorem C2_counterexample :
    ¬ ∃ fuel, ((importMidiWithAbsolutePath envNoWindows "song.mid" fuel).2).isSome = true := by
  rintro ⟨fuel, h⟩
  rcases hwe : waitImportWindow envNoWindows fuel 0 with ⟨evs, r⟩
  have hr : r = none := by
    have hn := waitImportWindow_result_none envNoWindows fuel 0 (fun _ => rfl)
    rw [hwe] at hn
    exact hn
  subst hr
  have hex : envNoWindows.pathExists (envNoWindows.abspath "song.mid") = true := rfl
  simp [importMidiWithAbsolutePath, hex, hwe] at h

/-- C2 (amended): if the file exists but the import dialog never appears,
`importMidiWithAbsolutePath` produces no outcome within any observation bound
(it loops in the window wait and never reports any failure), and in
particular it performs no button press and no keystroke injection. -/
theorem C2_amended_stuck_dialog (env : Env) (midi : String) (fuel : Nat)
    (hex : env.pathExists (env.abspath midi) = true)
    (hw : ∀ t, importWindowsAt env t = []) :
    (importMidiWithAbsolutePath env midi fuel).2 = none ∧
    pressedButtons (importMidiWithAbsolutePath env midi fuel).1 = [] ∧
    sentKeys (importMidiWithAbsolutePath env midi fuel).1 = [] := by
  rcases hwe : waitImportWindow env fuel 0 with ⟨evs, r⟩
  have hr : r = none := by
    have hn := waitImportWindow_result_none env fuel 0 hw
    rw [hwe] at hn
    exact hn
  subst hr
  have hmem : ∀ a ∈ evs, a = Act.sleepMs 100 ∨ a = Act.queryWindows := by
    intro a ha
    exact waitImportWindow_trace_mem env fuel 0 a (by rw [hwe]; exact ha)
  have htr : importMidiWithAbsolutePath env midi fuel
      = ([Act.selectLastTrack, Act.menuPress "File" "Import" "MIDI File…"] ++ evs, none) := by
    simp [importMidiWithAbsolutePath, hex, hwe]
  rw [htr]
  refine ⟨rfl, ?_, ?_⟩
  · rw [pressedButtons_append, pressedButtons_eq_nil_of_mem evs hmem]
    rfl
  · rw [sentKeys_append, sentKeys_eq_nil_of_mem evs hmem]
    rfl

/-- C2, witness for the amended theorem: concrete run against the
environment with no windows at observation bound 4. -/
theorem C2_witness :
    (importMidiWithAbsolutePath envNoWindows "song.mid" 4).2 = none ∧
    pressedButtons (importMidiWithAbsolutePath envNoWindows "song.mid" 4).1 = [] ∧
    sentKeys (importMidiWithAbsolutePath envNoWindows "song.mid" 4).1 = [] :=
  C2_amended_stuck_dialog envNoWindows "song.mid" 4 rfl (fun _ => rfl)

/-- C3, counterexample: with the tempo alert present but carrying neither the
"Import Tempo" nor the "OK" button, the claim says the session terminates in
Failed(PromptUnresolved).  In fact `importMidiWithAbsolutePath` swallows the
failure (only a message is printed) and still returns success (`True`). -/
theorem C3_counterexample :
    (importMidiWithAbsolutePath envUnresolvedAlert "song.mid" 1).2
      = some ImportOutcome.success ∧
    pressedButtons (importMidiWithAbsolutePath envUnresolvedAlert "song.mid" 1).1
      = ["Import"] := by
  constructor
  · rfl
  · rfl

/-- C3 (amended): when the alert window is present but neither fallback
candidate button can be found, the resolver performs zero press actions and
the failure is only logged: the session still reports success, the only
button ever pressed being the dialog's confirm button. -/
theorem C3_amended_unresolved_alert (env : Env) (midi : String) (w a : Window) (fuel : Nat)
    (hex : env.pathExists (env.abspath midi) = true)
    (hw0 : importWindowsAt env 0 = [w])
    (hbtn : w.buttonLabels.contains "Import" = true)
    (ha1 : alertWindowsAt env 1 = [a])
    (hA : a.buttonLabels.contains "Import Tempo" = false)
    (hB : a.buttonLabels.contains "OK" = false) :
    (importMidiWithAbsolutePath env midi (fuel + 1)).2 = some ImportOutcome.success ∧
    resolveTempoAlert a = [] ∧
    pressedButtons (importMidiWithAbsolutePath env midi (fuel + 1)).1 = ["Import"] := by
  have hwait : waitImportWindow env (fuel + 1) 0
      = ([Act.sleepMs 100, Act.queryWindows], some (w, 1)) := by
    simp [waitImportWindow, hw0]
  have hpoll : pollWindows (alertWindowsAt env) 50 1
      = ([Act.sleepMs 100, Act.queryWindows], some a) := by
    simp [pollWindows, ha1]
  have hA2 : "Import Tempo" ∉ a.buttonLabels := by simpa using hA
  have hB2 : "OK" ∉ a.buttonLabels := by simpa using hB
  have hres : resolveTempoAlert a = [] := by
    simp [resolveTempoAlert, hA2, hB2]
  have htr : importMidiWithAbsolutePath env midi (fuel + 1)
      = ([Act.selectLastTrack, Act.menuPress "File" "Import" "MIDI File…"]
          ++ [Act.sleepMs 100, Act.queryWindows]
          ++ ([Act.activateApp, Act.keyChord "g" ["command", "shift"], Act.sleepMs 500,
               Act.keyChord "a" ["command"], Act.sendGlobalKey "backspace"]
              ++ injectPath (env.abspath midi)
              ++ [Act.sleepMs 500, Act.sendKeys "\n", Act.sleepMs 1000])
          ++ [Act.pressButton "Import"]
          ++ [Act.sleepMs 100, Act.queryWindows]
          ++ resolveTempoAlert a,
         some ImportOutcome.success) := by
    have hbtn2 : "Import" ∈ w.buttonLabels := by simpa using hbtn
    simp [importMidiWithAbsolutePath, hex, hwait, hbtn2, hpoll]
  rw [htr]
  refine ⟨rfl, hres, ?_⟩
  simp only [pressedButtons_append, pressedButtons_injectPath, hres]
  rfl

/-- C3, witness for the amended theorem: concrete environment with the import
dialog and an alert offering only a "Cancel" button. -/
theorem C3_witness :
    (importMidiWithAbsolutePath envUnresolvedAlert "take2.mid" 1).2
      = some ImportOutcome.success ∧
    resolveTempoAlert alertNoKnownButtons = [] ∧
    pressedButtons (importMidiWithAbsolutePath envUnresolvedAlert "take2.mid" 1).1
      = ["Import"] :=
  C3_amended_unresolved_alert envUnresolvedAlert "take2.mid"
    importDialogWindow alertNoKnownButtons 0 rfl rfl rfl rfl rfl rfl

/-- C4, counterexample: the claim says the poller issues its first query
immediately, sleeping only between attempts, so a timed-out poll with
`max_attempts = 2` sleeps once.  The loop at improved_midi_import.py:87-96
sleeps BEFORE every query: the first trace event is a sleep, and a timed-out
poll with 2 attempts sleeps twice. -/
theorem C4_counterexample :
    sleepCount (pollWindows (fun _ => []) 2 0).1 ≠ 2 - 1 ∧
    (pollWindows (fun _ => []) 2 0).1.head? = some (Act.sleepMs 100) := by
  constructor
  · decide
  · rfl

/-- C4 (amended): the bounded poller invokes the query exactly `n` times and
reports no match when the query never matches, and exactly `j + 1` times when
the query first matches on (0-based) attempt `j`; but every attempt is
preceded by an interval sleep, so a timed-out poll sleeps `n` times (total
sleep `n * interval`, not `(n-1) * interval`) and a poll matching on attempt
`j` sleeps `j + 1` times. -/
theorem C4_amended_poll_counts :
    (∀ (q : Nat → List Window) (n t : Nat), (∀ u, q u = []) →
        (pollWindows q n t).2 = none ∧
        queryCount (pollWindows q n t).1 = n ∧
        sleepCount (pollWindows q n t).1 = n) ∧
    (∀ (q : Nat → List Window) (n t j : Nat), j < n →
        (∀ u, u < j → q (t + u) = []) → q (t + j) ≠ [] →
        (pollWindows q n t).2.isSome = true ∧
        queryCount (pollWindows q n t).1 = j + 1 ∧
        sleepCount (pollWindows q n t).1 = j + 1) := by
  constructor
  · intro q n t hq
    exact ⟨pollWindows_result_none q n t hq,
      (pollWindows_counts_timeout q n t hq).1, (pollWindows_counts_timeout q n t hq).2⟩
  · intro q n t j hj hb hm
    exact pollWindows_match q j n t hj hb hm

/-- C4, witness: the timed-out part at a never-matching query with 3 attempts,
and the matching part at a query first matching on its second invocation. -/
theorem C4_witness :
    ((pollWindows (fun _ => []) 3 0).2 = none ∧
     queryCount (pollWindows (fun _ => []) 3 0).1 = 3 ∧
     sleepCount (pollWindows (fun _ => []) 3 0).1 = 3) ∧
    ((pollWindows qMatchSecond 3 0).2.isSome = true ∧
     queryCount (pollWindows qMatchSecond 3 0).1 = 2 ∧
     sleepCount (pollWindows qMatchSecond 3 0).1 = 2) := by
  constructor
  · exact C4_amended_poll_counts.1 (fun _ => []) 3 0 (fun _ => rfl)
  · refine C4_amended_poll_counts.2 qMatchSecond 3 0 1 (by decide) ?_ (by decide)
    intro u hu
    have hu0 : u = 0 := by omega
    subst hu0
    rfl

/-- C5 (confirmed): injecting the absolute path string `s` produces exactly
`s.length` key-send calls, one per character of `s`, in the order the
characters occur in `s`, each carrying a single character — never one bulk
text-send request. -/
theorem C5_charwise_injection (s : String) :
    sentKeys (injectPath s) = s.data.map (fun c => String.singleton c) ∧
    (sentKeys (injectPath s)).length = s.length ∧
    ∀ k ∈ sentKeys (injectPath s), k.length = 1 := by
  refine ⟨sentKeys_injectPath s, ?_, ?_⟩
  · rw [sentKeys_injectPath s, List.length_map]
    rfl
  · intro k hk
    rw [sentKeys_injectPath s] at hk
    simp only [List.mem_map] at hk
    obtain ⟨c, _, rfl⟩ := hk
    rfl

/-- C6 (confirmed): the fallback resolution of the tempo alert examines the
candidates strictly in priority order — "Import Tempo" first, then "OK" —
and performs exactly one press on the first candidate found: with
"Import Tempo" absent and "OK" present the single action is on "OK", and
whenever "Import Tempo" is present it is the one pressed. -/
theorem C6_fallback_priority :
    (∀ a : Window, a.buttonLabels.contains "Import Tempo" = false →
        a.buttonLabels.contains "OK" = true →
        resolveTempoAlert a = [Act.pressButton "OK"]) ∧
    (∀ a : Window, a.buttonLabels.contains "Import Tempo" = true →
        resolveTempoAlert a = [Act.pressButton "Import Tempo"]) := by
  constructor
  · intro a hA hB
    have hA2 : "Import Tempo" ∉ a.buttonLabels := by simpa using hA
    have hB2 : "OK" ∈ a.buttonLabels := by simpa using hB
    simp [resolveTempoAlert, hA2, hB2]
  · intro a hA
    have hA2 : "Import Tempo" ∈ a.buttonLabels := by simpa using hA
    simp [resolveTempoAlert, hA2]

/-- C6, witness: an alert with only "OK" gets exactly one press on "OK"; an
alert with both buttons gets the press on "Import Tempo". -/
theorem C6_witness :
    resolveTempoAlert alertOnlyOk = [Act.pressButton "OK"] ∧
    resolveTempoAlert alertBothButtons = [Act.pressButton "Import Tempo"] :=
  ⟨C6_fallback_priority.1 alertOnlyOk rfl rfl,
   C6_fallback_priority.2 alertBothButtons rfl⟩

/-- C7 (confirmed): provisioning with a present template (whose path differs
from the destination) succeeds, creates the output directory, places exactly
one copy of the template content at the returned destination path whatever
was there before, and a second invocation with the same destination name
removes the first output and recreates it — again exactly one copy. -/
theorem C7_provisioning_idempotent (fs : FS) (tp name od : String) (v : Nat)
    (h1 : fsLookup fs tp = some v)
    (h2 : pathJoin od (name ++ ".logicx") ≠ tp) :
    ∃ fs1,
      createProjectFromTemplate fs tp name od
        = some (fs1, pathJoin od (name ++ ".logicx")) ∧
      fsExists fs1 od = true ∧
      fsLookup fs1 (pathJoin od (name ++ ".logicx")) = some v ∧
      fsCount fs1 (pathJoin od (name ++ ".logicx")) = 1 ∧
      ∃ fs2,
        createProjectFromTemplate fs1 tp name od
          = some (fs2, pathJoin od (name ++ ".logicx")) ∧
        fsLookup fs2 (pathJoin od (name ++ ".logicx")) = some v ∧
        fsCount fs2 (pathJoin od (name ++ ".logicx")) = 1 := by
  obtain ⟨fs1, hcall, hod, hlook, hcnt, htp⟩ :=
    createProjectFromTemplate_spec fs tp name od v h1 h2
  obtain ⟨fs2, hcall2, _, hlook2, hcnt2, _⟩ :=
    createProjectFromTemplate_spec fs1 tp name od v htp h2
  exact ⟨fs1, hcall, hod, hlook, hcnt, fs2, hcall2, hlook2, hcnt2⟩

/-- C7, witness: provisioning "house vibes" twice from a one-entry filesystem
holding only the template. -/
theorem C7_witness :
    ∃ fs1,
      createProjectFromTemplate [(templatePath, 7)] templatePath "house vibes" outputDir
        = some (fs1, pathJoin outputDir ("house vibes" ++ ".logicx")) ∧
      fsExists fs1 outputDir = true ∧
      fsLookup fs1 (pathJoin outputDir ("house vibes" ++ ".logicx")) = some 7 ∧
      fsCount fs1 (pathJoin outputDir ("house vibes" ++ ".logicx")) = 1 ∧
      ∃ fs2,
        createProjectFromTemplate fs1 templatePath "house vibes" outputDir
          = some (fs2, pathJoin outputDir ("house vibes" ++ ".logicx")) ∧
        fsLookup fs2 (pathJoin outputDir ("house vibes" ++ ".logicx")) = some 7 ∧
        fsCount fs2 (pathJoin outputDir ("house vibes" ++ ".logicx")) = 1 :=
  C7_provisioning_idempotent [(templatePath, 7)] templatePath "house vibes" outputDir 7
    (by decide) (by decide)

/-- C8 (confirmed): when the import dialog appears and the confirm press
succeeds but the tempo alert never appears within the 50-attempt poll bound,
the run ends in success with no alert-button press: absence of the alert is
treated as success and the fallback resolution performs no action. -/
theorem C8_absent_alert_success (env : Env) (midi : String) (w : Window) (fuel : Nat)
    (hex : env.pathExists (env.abspath midi) = true)
    (hw0 : importWindowsAt env 0 = [w])
    (hbtn : w.buttonLabels.contains "Import" = true)
    (halert : ∀ t, alertWindowsAt env t = []) :
    (importMidiWithAbsolutePath env midi (fuel + 1)).2 = some ImportOutcome.success ∧
    pressedButtons (importMidiWithAbsolutePath env midi (fuel + 1)).1 = ["Import"] := by
  have hwait : waitImportWindow env (fuel + 1) 0
      = ([Act.sleepMs 100, Act.queryWindows], some (w, 1)) := by
    simp [waitImportWindow, hw0]
  rcases hpoll : pollWindows (alertWindowsAt env) 50 1 with ⟨pevs, pr⟩
  have hpr : pr = none := by
    have hn := pollWindows_result_none (alertWindowsAt env) 50 1 halert
    rw [hpoll] at hn
    exact hn
  subst hpr
  have hpmem : pressedButtons pevs = [] := by
    apply pressedButtons_eq_nil_of_mem
    intro b hb
    exact pollWindows_trace_mem (alertWindowsAt env) 50 1 b (by rw [hpoll]; exact hb)
  have htr : importMidiWithAbsolutePath env midi (fuel + 1)
      = ([Act.selectLastTrack, Act.menuPress "File" "Import" "MIDI File…"]
          ++ [Act.sleepMs 100, Act.queryWindows]
          ++ ([Act.activateApp, Act.keyChord "g" ["command", "shift"], Act.sleepMs 500,
               Act.keyChord "a" ["command"], Act.sendGlobalKey "backspace"]
              ++ injectPath (env.abspath midi)
              ++ [Act.sleepMs 500, Act.sendKeys "\n", Act.sleepMs 1000])
          ++ [Act.pressButton "Import"]
          ++ pevs
          ++ [],
         some ImportOutcome.success) := by
    have hbtn2 : "Import" ∈ w.buttonLabels := by simpa using hbtn
    simp [importMidiWithAbsolutePath, hex, hwait, hbtn2, hpoll]
  rw [htr]
  refine ⟨rfl, ?_⟩
  simp only [pressedButtons_append, pressedButtons_injectPath, hpmem]
  rfl

/-- C8, witness: concrete environment where only the import dialog ever
exists. -/
theorem C8_witness :
    (importMidiWithAbsolutePath envNoAlert "song.mid" 1).2 = some ImportOutcome.success ∧
    pressedButtons (importMidiWithAbsolutePath envNoAlert "song.mid" 1).1 = ["Import"] :=
  C8_absent_alert_success envNoAlert "song.mid" importDialogWindow 0 rfl rfl rfl (fun _ => rfl)

/-- C9, counterexample: the claim says the command-line entry point exits
non-zero whenever provisioning fails.  With a valid argument list but no
template on disk, `createDanceProject` fails (returns the template-missing
outcome) yet `main` ignores its return value and the process exits 0. -/
theorem C9_counterexample :
    (mainRun ["improved_midi_import.py", "proj"] [] true).1 = 0 ∧
    (mainRun ["improved_midi_import.py", "proj"] [] true).2
      = some (some ([], DanceResult.templateMissing)) := by
  constructor
  · rfl
  · rfl

/-- C9 (amended): `main` exits 1 exactly when fewer than two `sys.argv`
entries are given (the usage error); with enough arguments it always exits 0,
whatever `createDanceProject` returns, because that return value is
discarded. -/
theorem C9_exit_code_ignores_result (argv : List String) (fs : FS) (imp : Bool) :
    (argv.length < 2 → mainRun argv fs imp = (1, none)) ∧
    (2 ≤ argv.length → (mainRun argv fs imp).1 = 0) := by
  constructor
  · intro h
    simp [mainRun, h]
  · intro h
    simp [mainRun, Nat.not_lt.mpr h]

/-- C9, witness: one-argument invocation exits 1; two-argument invocation on
an empty filesystem exits 0. -/
theorem C9_witness :
    mainRun ["improved_midi_import.py"] [] true = (1, none) ∧
    (mainRun ["improved_midi_import.py", "proj"] [] false).1 = 0 :=
  ⟨(C9_exit_code_ignores_result ["improved_midi_import.py"] [] true).1 (by decide),
   (C9_exit_code_ignores_result ["improved_midi_import.py", "proj"] [] false).2 (by decide)⟩

/-- C10 (confirmed): once the template exists, `createDanceProject` returns
the provisioned project path whatever the MIDI argument and whatever outcome
the import step would have: the import result is only reported as status
text and never changes the returned value. -/
theorem C10_return_unaffected_by_import (fs : FS) (name : String) (tempo : Nat)
    (key : String) (midi : Option String) (imp : Bool) (v : Nat)
    (h1 : fsLookup fs templatePath = some v) :
    ∃ fs1, createDanceProject fs name tempo key midi imp
        = some (fs1, DanceResult.projectCreated (pathJoin outputDir (name ++ ".logicx"))) := by
  have h2 : pathJoin outputDir (name ++ ".logicx") ≠ templatePath :=
    projectDest_ne_templatePath (name ++ ".logicx")
  obtain ⟨fs3, hcall, _, _, _, _⟩ :=
    createProjectFromTemplate_spec fs templatePath name outputDir v h1 h2
  refine ⟨fs3, ?_⟩
  have hex := fsExists_of_lookup_some fs templatePath v h1
  simp [createDanceProject, hex, hcall]

/-- C10, witness: template present, MIDI file given but its import failing
(`imp = false`): the returned value is still the project path. -/
theorem C10_witness :
    ∃ fs1, createDanceProject [(templatePath, 7)] "proj" 124 "A minor"
        (some "missing.mid") false
      = some (fs1, DanceResult.projectCreated (pathJoin outputDir ("proj" ++ ".logicx"))) :=
  C10_return_unaffected_by_import [(templatePath, 7)] "proj" 124 "A minor"
    (some "missing.mid") false 7 (by decide)
